import Mathlib

/-
Verification development for the QEMU TPM front ends of this repository:
the CRB MMIO interface (hw/tpm/tpm_crb.c, register layout from
include/hw/acpi/tpm.h) and the sPAPR vTPM CRQ interface (second part of
hw/tpm/tpm_ioctl.h).  The C code is shallowly embedded: machine integers
become Nat with explicit truncation where a narrower field is written,
stateful functions become pure functions from a state record to a new state
paired with a list of externally visible effects (backend submissions, DMA
transfers, CRQ sends), and external collaborators (TPM backend, DMA engine,
CRQ transport) are modelled by parameters carrying their answers.
-/

/-- Target page size of the emulated machine (QEMU TARGET_PAGE_SIZE; external
constant, 4096 bytes on the modelled ppc64 target). -/
def TARGET_PAGE_SIZE : Nat := 4096

/-- PAPR hypercall success status (external constant from hw/ppc/spapr.h). -/
def H_SUCCESS : Nat := 0

/-- PAPR hypercall busy status (external constant from hw/ppc/spapr.h); its only
role in the model is to be distinct from H_SUCCESS. -/
def H_BUSY : Nat := 1

/-- IBM PCI vendor id (external constant from hw/pci/pci_ids.h). -/
def PCI_VENDOR_ID_IBM : Nat := 0x1014

/-- ROUND_UP(n, d) from qemu/osdep.h; for the power-of-two alignments used here
it rounds n up to the next multiple of d. -/
def ROUND_UP (n d : Nat) : Nat := ((n + d - 1) / d) * d

/-- Writing a value through cpu_to_be16 into a 16-bit wire field: the model
keeps every field in host order, so the conversion reduces to the width
truncation modulo 2^16. -/
def wire16 (x : Nat) : Nat := x % 65536

/-- Writing a value through cpu_to_be32 into a 32-bit wire field (truncation
modulo 2^32, fields kept in host order). -/
def wire32 (x : Nat) : Nat := x % 4294967296

/-
CRB register file, from struct crb_regs in include/hw/acpi/tpm.h.  The byte
offsets below follow the packed struct field by field; the struct ends with
the 0xF80-byte data_buffer array, so its total size is 0x1000 bytes.
-/

def CRB_ADDR_LOC_STATE : Nat := 0
def CRB_ADDR_LOC_CTRL : Nat := 8
def CRB_ADDR_LOC_STS : Nat := 12
def CRB_ADDR_CTRL_REQ : Nat := 64
def CRB_ADDR_CTRL_STS : Nat := 68
def CRB_ADDR_CTRL_CANCEL : Nat := 72
def CRB_ADDR_CTRL_START : Nat := 76

/-- Byte offset of the data_buffer field of struct crb_regs: four 32-bit
locality registers (16), reserved2 (32), four interface/extension registers
(16), twelve 32-bit control registers (48), reserved3 (16). -/
def crb_regs_data_buffer_offset : Nat := 16 + 32 + 16 + 48 + 16

/-- Size of struct crb_regs: the registers up to data_buffer plus the
data_buffer array of 0x1000 - 0x80 bytes. -/
def sizeof_crb_regs : Nat := crb_regs_data_buffer_offset + (0x1000 - 0x80)

def TPM_CRB_ADDR_BASE : Nat := 0xFED40000
def TPM_CRB_ADDR_SIZE : Nat := 0x1000

/-- CRB_CTRL_CMD_SIZE from tpm_crb.c: TPM_CRB_ADDR_SIZE - sizeof(struct
crb_regs). -/
def CRB_CTRL_CMD_SIZE : Nat := TPM_CRB_ADDR_SIZE - sizeof_crb_regs

def CRB_INTF_TYPE_CRB_ACTIVE : Nat := 1
def CRB_INTF_VERSION_CRB : Nat := 1 <<< 4
def CRB_INTF_CAP_LOCALITY_0_ONLY : Nat := 0 <<< 8
def CRB_INTF_CAP_IDLE_FAST : Nat := 0 <<< 9
def CRB_INTF_CAP_XFER_SIZE_64 : Nat := 3 <<< 11
def CRB_INTF_CAP_FIFO_NOT_SUPPORTED : Nat := 0 <<< 13
def CRB_INTF_CAP_CRB_SUPPORTED : Nat := 1 <<< 14
def CRB_INTF_IF_SELECTOR_CRB : Nat := 1 <<< 17
def CRB_INTF_IF_SELECTOR_UNLOCKED : Nat := 0 <<< 19

def CRB_LOC_STATE_LOC_ASSIGNED : Nat := 1 <<< 1
def CRB_LOC_STATE_TPM_REG_VALID_STS : Nat := 1 <<< 7
def CRB_LOC_STS_GRANTED : Nat := 1

def CRB_CTRL_STS_TPM_STS : Nat := 1
def CRB_CTRL_STS_TPM_IDLE : Nat := 2

def CRB_LOC_CTRL_REQUEST_ACCESS : Nat := 1
def CRB_LOC_CTRL_RELINQUISH : Nat := 2
def CRB_LOC_CTRL_SEIZE : Nat := 4
def CRB_LOC_CTRL_RESET_ESTABLISHMENT_BIT : Nat := 8

def CRB_CTRL_REQ_CMD_READY : Nat := 1
def CRB_CTRL_REQ_GO_IDLE : Nat := 2

def CRB_START_INVOKE : Nat := 1
def CRB_CANCEL_INVOKE : Nat := 1

/-- Register fields of struct crb_regs (reserved padding omitted from the
record; it only contributes to the offsets above). -/
structure CrbRegs where
  loc_state : Nat
  loc_ctrl : Nat
  loc_sts : Nat
  intf_id_low : Nat
  intf_id_high : Nat
  ctrl_ext_low : Nat
  ctrl_ext_high : Nat
  ctrl_req : Nat
  ctrl_sts : Nat
  ctrl_cancel : Nat
  ctrl_start : Nat
  ctrl_int_enable : Nat
  ctrl_int_sts : Nat
  ctrl_cmd_size : Nat
  ctrl_cmd_pa_low : Nat
  ctrl_cmd_pa_high : Nat
  ctrl_rsp_size : Nat
  ctrl_rsp_pa_low : Nat
  ctrl_rsp_pa_high : Nat
deriving DecidableEq

/-- Externally visible actions of the CRB device towards the TPM backend. -/
inductive CrbEffect where
  | deliverRequest (inLen outLen : Nat)
  | cancelCmd
  | backendReset
  | startupTpm (bufferSize : Nat)
deriving DecidableEq

/-- Device state of tpm_crb.c (CRBState): the register file, the negotiated
backend buffer size, and the in/out lengths of the TPMBackendCmd slot. -/
structure CRBState where
  regs : CrbRegs
  be_buffer_size : Nat
  cmd_in_len : Nat
  cmd_out_len : Nat
deriving DecidableEq

/-- tpm_crb_mmio_write from tpm_crb.c.  cmdSize stands for
tpm_cmd_get_size(mem), the command size decoded from the command memory
region (external input read at the moment of the write). -/
def tpm_crb_mmio_write (s : CRBState) (addr val cmdSize : Nat) :
    CRBState × List CrbEffect :=
  if addr = CRB_ADDR_CTRL_REQ then
    if val = CRB_CTRL_REQ_CMD_READY then
      ({ s with regs := { s.regs with
           ctrl_sts := s.regs.ctrl_sts &&& 0xFFFFFFFD } }, [])
    else if val = CRB_CTRL_REQ_GO_IDLE then
      ({ s with regs := { s.regs with
           ctrl_sts := s.regs.ctrl_sts ||| CRB_CTRL_STS_TPM_IDLE } }, [])
    else (s, [])
  else if addr = CRB_ADDR_CTRL_CANCEL then
    if val = CRB_CANCEL_INVOKE ∧ s.regs.ctrl_start &&& CRB_START_INVOKE ≠ 0 then
      (s, [CrbEffect.cancelCmd])
    else (s, [])
  else if addr = CRB_ADDR_CTRL_START then
    if val = CRB_START_INVOKE ∧ s.regs.ctrl_start &&& CRB_START_INVOKE = 0 then
      ({ s with
           regs := { s.regs with
             ctrl_start := s.regs.ctrl_start ||| CRB_START_INVOKE },
           cmd_in_len := min cmdSize s.be_buffer_size,
           cmd_out_len := s.be_buffer_size },
       [CrbEffect.deliverRequest (min cmdSize s.be_buffer_size)
          s.be_buffer_size])
    else (s, [])
  else if addr = CRB_ADDR_LOC_CTRL then
    if val = CRB_LOC_CTRL_REQUEST_ACCESS then
      ({ s with regs := { s.regs with
           loc_sts := CRB_LOC_STS_GRANTED,
           loc_state := CRB_LOC_STATE_LOC_ASSIGNED |||
             CRB_LOC_STATE_TPM_REG_VALID_STS } }, [])
    else (s, [])
  else (s, [])

/-- Power-on register values assigned by tpm_crb_reset. -/
def crbResetRegs : CrbRegs :=
  { loc_state := 0
    loc_ctrl := 0
    loc_sts := 0
    intf_id_low :=
      CRB_INTF_TYPE_CRB_ACTIVE |||
      CRB_INTF_VERSION_CRB |||
      CRB_INTF_CAP_LOCALITY_0_ONLY |||
      CRB_INTF_CAP_IDLE_FAST |||
      CRB_INTF_CAP_XFER_SIZE_64 |||
      CRB_INTF_CAP_FIFO_NOT_SUPPORTED |||
      CRB_INTF_CAP_CRB_SUPPORTED |||
      CRB_INTF_IF_SELECTOR_CRB |||
      CRB_INTF_IF_SELECTOR_UNLOCKED |||
      (0b0001 <<< 24)
    intf_id_high := PCI_VENDOR_ID_IBM ||| (0b0001 <<< 16)
    ctrl_ext_low := 0
    ctrl_ext_high := 0
    ctrl_req := 0
    ctrl_sts := 0
    ctrl_cancel := 0
    ctrl_start := 0
    ctrl_int_enable := 0
    ctrl_int_sts := 0
    ctrl_cmd_size := CRB_CTRL_CMD_SIZE
    ctrl_cmd_pa_low := wire32 (TPM_CRB_ADDR_BASE + sizeof_crb_regs)
    ctrl_cmd_pa_high := 0
    ctrl_rsp_size := CRB_CTRL_CMD_SIZE
    ctrl_rsp_pa_low := wire32 (TPM_CRB_ADDR_BASE + sizeof_crb_regs)
    ctrl_rsp_pa_high := 0 }

/-- tpm_crb_reset from tpm_crb.c.  backendBufSize stands for the answer of
tpm_backend_get_buffer_size (external input). -/
def tpm_crb_reset (s : CRBState) (backendBufSize : Nat) :
    CRBState × List CrbEffect :=
  let sz := min backendBufSize CRB_CTRL_CMD_SIZE
  ({ s with be_buffer_size := sz, regs := crbResetRegs },
   [CrbEffect.backendReset, CrbEffect.startupTpm sz])

/-- tpm_crb_request_completed from tpm_crb.c: the backend completion callback
with backend result code ret. -/
def tpm_crb_request_completed (s : CRBState) (ret : Int) : CRBState :=
  { s with regs := { s.regs with
      ctrl_start := s.regs.ctrl_start &&& 0xFFFFFFFE,
      ctrl_sts :=
        if ret ≠ 0 then s.regs.ctrl_sts ||| CRB_CTRL_STS_TPM_STS
        else s.regs.ctrl_sts } }

/-- Number of backend command submissions in a CRB effect trace. -/
def crbCountDeliver : List CrbEffect → Nat
  | [] => 0
  | CrbEffect.deliverRequest _ _ :: rest => crbCountDeliver rest + 1
  | _ :: rest => crbCountDeliver rest

/-- All-zero CRB device state used as a concrete starting point. -/
def crbInit : CRBState :=
  { regs :=
      { loc_state := 0, loc_ctrl := 0, loc_sts := 0, intf_id_low := 0
        intf_id_high := 0, ctrl_ext_low := 0, ctrl_ext_high := 0
        ctrl_req := 0, ctrl_sts := 0, ctrl_cancel := 0, ctrl_start := 0
        ctrl_int_enable := 0, ctrl_int_sts := 0, ctrl_cmd_size := 0
        ctrl_cmd_pa_low := 0, ctrl_cmd_pa_high := 0, ctrl_rsp_size := 0
        ctrl_rsp_pa_low := 0, ctrl_rsp_pa_high := 0 }
    be_buffer_size := 0
    cmd_in_len := 0
    cmd_out_len := 0 }

/-
sPAPR vTPM CRQ interface, from the second part of hw/tpm/tpm_ioctl.h.
All multi-byte CRQ fields are big-endian on the wire; the model stores the
logical host-order value in each field, so every be*_to_cpu read is the
identity and every cpu_to_be* store is the width truncation wire16/wire32.
-/

def SPAPR_VTPM_VALID_INIT_CRQ_COMMAND : Nat := 0xC0
def SPAPR_VTPM_VALID_COMMAND : Nat := 0x80
def SPAPR_VTPM_MSG_RESULT : Nat := 0x80

def SPAPR_VTPM_INIT_CRQ_RESULT : Nat := 0x1
def SPAPR_VTPM_INIT_CRQ_COMPLETE_RESULT : Nat := 0x2

def SPAPR_VTPM_GET_VERSION : Nat := 0x1
def SPAPR_VTPM_TPM_COMMAND : Nat := 0x2
def SPAPR_VTPM_GET_RTCE_BUFFER_SIZE : Nat := 0x3
def SPAPR_VTPM_PREPARE_TO_SUSPEND : Nat := 0x4

def SPAPR_VTPM_VTPM_ERROR : Nat := 0xFF

def SPAPR_VTPM_ERR_COPY_IN_FAILED : Nat := 0x3
def SPAPR_VTPM_ERR_COPY_OUT_FAILED : Nat := 0x4

def SPAPR_VTPM_STATE_NONE : Nat := 0
def SPAPR_VTPM_STATE_EXECUTION : Nat := 1
def SPAPR_VTPM_STATE_COMPLETION : Nat := 2

/-- MAX_BUFFER_SIZE from tpm_ioctl.h: the scratch buffer is one target page. -/
def MAX_BUFFER_SIZE : Nat := TARGET_PAGE_SIZE

/-- TPM version as reported by the backend (enum TPMVersion). -/
inductive TPMVersion where
  | unspec
  | v1_2
  | v2_0
deriving DecidableEq

/-- Numeric version code placed in the GET_VERSION response data field (the
switch on be_tpm_version in tpm_spapr_do_crq). -/
def versionCode : TPMVersion → Nat
  | TPMVersion.unspec => 0
  | TPMVersion.v1_2 => 1
  | TPMVersion.v2_0 => 2

/-- One 16-byte CRQ message (struct VioCRQ), fields in host order. -/
structure VioCRQ where
  valid : Nat
  msg : Nat
  len : Nat
  data : Nat
  reserved : Nat
deriving DecidableEq

/-- Externally visible actions of the sPAPR vTPM device: guest DMA transfers,
CRQ sends, and backend calls. -/
inductive SpaprEffect where
  | dmaRead (addr len : Nat)
  | dmaWrite (addr len : Nat)
  | sendCrq (m : VioCRQ)
  | deliverRequest (locty inLen outLen : Nat)
  | backendReset
  | startupTpm (bufferSize : Nat)
deriving DecidableEq

/-- Device state of the sPAPR vTPM (SPAPRvTPMState): the tracked CRQ copy of
the in-flight command, the execution state, the TPMBackendCmd lengths, the
version cached at reset, the negotiated buffer size and the deferred
completion flag.  The scratch buffer contents are not modelled; the decoded
command/response sizes read from it (tpm_cmd_get_size) enter as parameters. -/
structure SPAPRvTPMState where
  crq : VioCRQ
  state : Nat
  cmd_in_len : Nat
  cmd_out_len : Nat
  be_tpm_version : TPMVersion
  be_buffer_size : Nat
  run_bh_func : Bool
deriving DecidableEq

/-- tpm_spapr_tpm_send: mark the device Executing and submit the scratch
buffer to the backend.  cmdSize stands for tpm_cmd_get_size(s->buffer). -/
def tpm_spapr_tpm_send (s : SPAPRvTPMState) (cmdSize : Nat) :
    SPAPRvTPMState × List SpaprEffect :=
  ({ s with
       state := SPAPR_VTPM_STATE_EXECUTION,
       cmd_in_len := min cmdSize MAX_BUFFER_SIZE,
       cmd_out_len := MAX_BUFFER_SIZE },
   [SpaprEffect.deliverRequest 0 (min cmdSize MAX_BUFFER_SIZE)
      MAX_BUFFER_SIZE])

/-- tpm_spapr_process_cmd: DMA-read up to be_buffer_size bytes from the guest
address dataptr into the scratch buffer, then send to the backend regardless
of the DMA outcome.  dmaReadOk is the DMA engine's answer; the returned code
is 0 exactly on DMA success. -/
def tpm_spapr_process_cmd (s : SPAPRvTPMState) (dataptr : Nat)
    (dmaReadOk : Bool) (cmdSize : Nat) :
    (SPAPRvTPMState × List SpaprEffect) × Nat :=
  let rc := if dmaReadOk then H_SUCCESS else 1
  let r := tpm_spapr_tpm_send s cmdSize
  ((r.1, SpaprEffect.dmaRead dataptr s.be_buffer_size :: r.2), rc)

/-- tpm_spapr_do_crq: dispatch one incoming CRQ message.  dmaReadOk and
cmdSize parameterize the DMA engine and the scratch buffer contents for the
TPM-command case; the Nat result is the hypercall return code. -/
def tpm_spapr_do_crq (s : SPAPRvTPMState) (m : VioCRQ)
    (dmaReadOk : Bool) (cmdSize : Nat) :
    (SPAPRvTPMState × List SpaprEffect) × Nat :=
  if m.valid = SPAPR_VTPM_VALID_INIT_CRQ_COMMAND then
    if m.msg = SPAPR_VTPM_INIT_CRQ_RESULT then
      ((s, [SpaprEffect.sendCrq
         { valid := SPAPR_VTPM_VALID_INIT_CRQ_COMMAND,
           msg := SPAPR_VTPM_INIT_CRQ_RESULT, len := 0, data := 0,
           reserved := 0 }]), H_SUCCESS)
    else if m.msg = SPAPR_VTPM_INIT_CRQ_COMPLETE_RESULT then
      ((s, [SpaprEffect.sendCrq
         { valid := SPAPR_VTPM_VALID_INIT_CRQ_COMMAND,
           msg := SPAPR_VTPM_INIT_CRQ_COMPLETE_RESULT, len := 0, data := 0,
           reserved := 0 }]), H_SUCCESS)
    else ((s, []), H_SUCCESS)
  else if m.valid = SPAPR_VTPM_VALID_COMMAND then
    if m.msg = SPAPR_VTPM_TPM_COMMAND then
      if s.state = SPAPR_VTPM_STATE_EXECUTION then
        ((s, []), H_BUSY)
      else
        let s1 := { s with crq := m }
        let pr := tpm_spapr_process_cmd s1 m.data dmaReadOk cmdSize
        if pr.2 = H_SUCCESS then
          (({ pr.1.1 with crq := { pr.1.1.crq with valid := 0 } }, pr.1.2),
           H_SUCCESS)
        else
          ((pr.1.1, pr.1.2 ++
             [SpaprEffect.sendCrq
                { m with
                  valid := SPAPR_VTPM_MSG_RESULT,
                  msg := SPAPR_VTPM_VTPM_ERROR,
                  data := wire32 SPAPR_VTPM_ERR_COPY_IN_FAILED }]),
           H_SUCCESS)
    else if m.msg = SPAPR_VTPM_GET_RTCE_BUFFER_SIZE then
      ((s, [SpaprEffect.sendCrq
         { m with
           msg := m.msg ||| SPAPR_VTPM_MSG_RESULT,
           len := wire16 s.be_buffer_size }]), H_SUCCESS)
    else if m.msg = SPAPR_VTPM_GET_VERSION then
      ((s, [SpaprEffect.sendCrq
         { m with
           msg := m.msg ||| SPAPR_VTPM_MSG_RESULT,
           len := wire16 0,
           data := wire32 (versionCode s.be_tpm_version) }]), H_SUCCESS)
    else if m.msg = SPAPR_VTPM_PREPARE_TO_SUSPEND then
      ((s, [SpaprEffect.sendCrq
         { m with msg := m.msg ||| SPAPR_VTPM_MSG_RESULT }]), H_SUCCESS)
    else ((s, []), H_SUCCESS)
  else ((s, []), H_SUCCESS)

/-- The body of the backend completion callback (_tpm_spapr_request_completed):
mark Completed, DMA-write the response from the scratch buffer to the guest
address saved in the tracked CRQ, rebuild the tracked CRQ as the response
message and send it.  respSize stands for tpm_cmd_get_size(s->buffer) and
dmaWriteOk for the DMA engine's answer; a send failure is only logged, so it
does not enter the state. -/
def tpm_spapr_request_completed_body (s : SPAPRvTPMState) (respSize : Nat)
    (dmaWriteOk : Bool) : SPAPRvTPMState × List SpaprEffect :=
  let len := min respSize s.be_buffer_size
  let crq1 :=
    if dmaWriteOk then
      { s.crq with
        valid := SPAPR_VTPM_MSG_RESULT,
        msg := SPAPR_VTPM_TPM_COMMAND ||| SPAPR_VTPM_MSG_RESULT,
        len := wire16 len }
    else
      { s.crq with
        valid := SPAPR_VTPM_MSG_RESULT,
        msg := SPAPR_VTPM_VTPM_ERROR,
        len := wire16 0,
        data := wire32 SPAPR_VTPM_ERR_COPY_OUT_FAILED }
  ({ s with state := SPAPR_VTPM_STATE_COMPLETION, crq := crq1 },
   [SpaprEffect.dmaWrite s.crq.data len, SpaprEffect.sendCrq crq1])

/-- tpm_spapr_reset: cache the backend version, renegotiate the buffer size,
reset and restart the backend.  backendVersion and backendBufSize stand for
the backend's answers to get_tpm_version and get_buffer_size. -/
def tpm_spapr_reset (s : SPAPRvTPMState) (backendVersion : TPMVersion)
    (backendBufSize : Nat) : SPAPRvTPMState × List SpaprEffect :=
  let sz := max (ROUND_UP backendBufSize TARGET_PAGE_SIZE) MAX_BUFFER_SIZE
  ({ s with
       state := SPAPR_VTPM_STATE_NONE,
       be_tpm_version := backendVersion,
       be_buffer_size := sz },
   [SpaprEffect.backendReset, SpaprEffect.startupTpm sz])

/-- tpm_spapr_get_version: the TPMIf get_version callback, gated on the
backend's startup-error status (both backend answers enter as parameters). -/
def tpm_spapr_get_version (hadStartupError : Bool)
    (backendVersion : TPMVersion) : TPMVersion :=
  if hadStartupError then TPMVersion.unspec else backendVersion

/-- tpm_spapr_pre_save: record in run_bh_func the answer of
tpm_backend_wait_cmd_completed, the blocking drain primitive whose result
says whether a completed command still awaits delivery. -/
def tpm_spapr_pre_save (s : SPAPRvTPMState) (waitResult : Bool) :
    SPAPRvTPMState :=
  { s with run_bh_func := waitResult }

/-- tpm_spapr_post_load: after restore, replay the completion path exactly
when the deferred flag was recorded. -/
def tpm_spapr_post_load (s : SPAPRvTPMState) (respSize : Nat)
    (dmaWriteOk : Bool) : SPAPRvTPMState × List SpaprEffect :=
  if s.run_bh_func then tpm_spapr_request_completed_body s respSize dmaWriteOk
  else (s, [])

/-- Number of backend command submissions in a CRQ effect trace. -/
def countDeliver : List SpaprEffect → Nat
  | [] => 0
  | SpaprEffect.deliverRequest _ _ _ :: rest => countDeliver rest + 1
  | _ :: rest => countDeliver rest

/-- Number of guest DMA writes in a CRQ effect trace. -/
def countDmaWrite : List SpaprEffect → Nat
  | [] => 0
  | SpaprEffect.dmaWrite _ _ :: rest => countDmaWrite rest + 1
  | _ :: rest => countDmaWrite rest

/-- Number of CRQ response sends in a CRQ effect trace. -/
def countSend : List SpaprEffect → Nat
  | [] => 0
  | SpaprEffect.sendCrq _ :: rest => countSend rest + 1
  | _ :: rest => countSend rest

/-- All-zero sPAPR vTPM device state used as a concrete starting point. -/
def spaprInit : SPAPRvTPMState :=
  { crq := { valid := 0, msg := 0, len := 0, data := 0, reserved := 0 }
    state := 0
    cmd_in_len := 0
    cmd_out_len := 0
    be_tpm_version := TPMVersion.unspec
    be_buffer_size := 0
    run_bh_func := false }

/-- Example CRQ message: a TPM-command CRQ carrying a guest DMA address. -/
def mTpmCmd : VioCRQ :=
  { valid := 0x80, msg := 0x2, len := 32, data := 0x2000, reserved := 0 }

/-- Example CRQ message: a Get-version command. -/
def mGetVersion : VioCRQ :=
  { valid := 0x80, msg := 0x1, len := 0, data := 0, reserved := 0 }

/-- Example CRQ message: a Get-RTCE-buffer-size command. -/
def mGetRtce : VioCRQ :=
  { valid := 0x80, msg := 0x3, len := 0, data := 0, reserved := 0 }

/-- Example device state: a command currently Executing. -/
def sExecuting : SPAPRvTPMState := { spaprInit with state := 1 }

/-- Example device state: idle, negotiated to 4096 bytes, with a tracked
command CRQ whose guest address is 0x1234. -/
def sIdle4096 : SPAPRvTPMState :=
  { spaprInit with
      be_buffer_size := 4096,
      crq := { valid := 0, msg := 0, len := 0, data := 0x1234, reserved := 0 } }

/-- Example device state: negotiated to 65536 bytes. -/
def sBig : SPAPRvTPMState := { spaprInit with be_buffer_size := 65536 }

/-- Helper: OR-ing in the low bit makes the low bit set. -/
theorem lor_one_and_one (x : Nat) : (x ||| 1) &&& 1 = 1 := by
  simp [Nat.and_one_is_mod]

/-- Helper: a number with the low bit OR-ed in is odd. -/
theorem lor_one_mod_two (x : Nat) : (x ||| 1) % 2 = 1 := by
  simp

/-- C1: a TPM-command CRQ arriving while the device is Executing is rejected
with H_BUSY, produces no effects (in particular no backend submission), and
leaves the whole device state, including the tracked CRQ copy, unchanged. -/
theorem tpm_spapr_busy_rejection (s : SPAPRvTPMState) (m : VioCRQ)
    (dmaReadOk : Bool) (cmdSize : Nat)
    (hst : s.state = SPAPR_VTPM_STATE_EXECUTION)
    (hv : m.valid = SPAPR_VTPM_VALID_COMMAND)
    (hm : m.msg = SPAPR_VTPM_TPM_COMMAND) :
    tpm_spapr_do_crq s m dmaReadOk cmdSize = ((s, []), H_BUSY) ∧
    H_BUSY ≠ H_SUCCESS ∧
    countDeliver (tpm_spapr_do_crq s m dmaReadOk cmdSize).1.2 = 0 := by
  have : tpm_spapr_do_crq s m dmaReadOk cmdSize = ((s, []), H_BUSY) := by
    simp [tpm_spapr_do_crq, hv, hm, hst, SPAPR_VTPM_VALID_COMMAND,
      SPAPR_VTPM_VALID_INIT_CRQ_COMMAND, SPAPR_VTPM_TPM_COMMAND,
      SPAPR_VTPM_STATE_EXECUTION]
  refine ⟨this, by simp [H_BUSY, H_SUCCESS], by simp [this, countDeliver]⟩

theorem tpm_spapr_busy_rejection_witness :
    tpm_spapr_do_crq sExecuting mTpmCmd true 32 = ((sExecuting, []), H_BUSY) ∧
    H_BUSY ≠ H_SUCCESS ∧
    countDeliver (tpm_spapr_do_crq sExecuting mTpmCmd true 32).1.2 = 0 :=
  tpm_spapr_busy_rejection sExecuting mTpmCmd true 32 rfl rfl rfl

/-- C2 counterexample: at backend buffer size 4096 the negotiated size after
CRB reset is 0, not 3840, and the command/response size registers report 0. -/
theorem tpm_crb_reset_4096_counterexample :
    (tpm_crb_reset crbInit 4096).1.be_buffer_size = 0 ∧
    (tpm_crb_reset crbInit 4096).1.be_buffer_size ≠ 3840 ∧
    (tpm_crb_reset crbInit 4096).1.regs.ctrl_cmd_size = 0 ∧
    (tpm_crb_reset crbInit 4096).1.regs.ctrl_rsp_size = 0 := by decide

/-- C2 amended: CRB reset negotiates min(backend size, TPM_CRB_ADDR_SIZE -
sizeof(struct crb_regs)); because struct crb_regs spans the whole 0x1000
window its size equals TPM_CRB_ADDR_SIZE, so the negotiated size is 0 for
every backend size and the command/response size registers report
CRB_CTRL_CMD_SIZE = 0. -/
theorem tpm_crb_reset_buffer_negotiation :
    (∀ s B, (tpm_crb_reset s B).1.be_buffer_size =
      min B (TPM_CRB_ADDR_SIZE - sizeof_crb_regs)) ∧
    sizeof_crb_regs = TPM_CRB_ADDR_SIZE ∧
    (∀ s B, (tpm_crb_reset s B).1.be_buffer_size = 0) ∧
    (∀ s B, (tpm_crb_reset s B).1.regs.ctrl_cmd_size = CRB_CTRL_CMD_SIZE ∧
      (tpm_crb_reset s B).1.regs.ctrl_rsp_size = CRB_CTRL_CMD_SIZE) ∧
    CRB_CTRL_CMD_SIZE = 0 := by
  refine ⟨fun s B => rfl, by decide, fun s B => ?_, fun s B => ⟨rfl, rfl⟩, by decide⟩
  show min B CRB_CTRL_CMD_SIZE = 0
  have : CRB_CTRL_CMD_SIZE = 0 := by decide
  simp [this]

/-- C3 counterexample: on a device whose reset against a backend reporting a
65536-byte buffer negotiated 65536 bytes (a reachable state), a successful
completion with decoded response size 65536 DMA-writes 65536 bytes but sends
a response whose 16-bit len field holds 0, so the claim's 'len = bytes
written' fails. -/
theorem tpm_spapr_completion_len_counterexample :
    (tpm_spapr_reset spaprInit TPMVersion.v2_0 65536).1.be_buffer_size =
      65536 ∧
    (tpm_spapr_request_completed_body
        (tpm_spapr_reset spaprInit TPMVersion.v2_0 65536).1 65536 true).2 =
      [SpaprEffect.dmaWrite 0 65536,
       SpaprEffect.sendCrq
         { valid := 0x80, msg := 0x82, len := 0, data := 0,
           reserved := 0 }] ∧
    (0 : Nat) ≠ 65536 := by decide

/-- C3 amended: the backend completion callback sets state = Completed,
DMA-writes min(decoded response size, negotiated buffer size) bytes to the
guest address saved in the tracked command CRQ, and sends a response built
on the saved message with tag 0x80; on DMA success the response has
msg = 0x82 (TPM-command with the response flag) and len = bytes written
modulo 2^16 (the len field is 16-bit, so counts of 65536 or more are
truncated), on DMA failure msg = 0xFF, len = 0 and data = 4
(copy-out-failed). -/
theorem tpm_spapr_completion_response (s : SPAPRvTPMState) (respSize : Nat)
    (dmaWriteOk : Bool) :
    tpm_spapr_request_completed_body s respSize dmaWriteOk =
      (let len := min respSize s.be_buffer_size
       let r :=
         if dmaWriteOk then
           { s.crq with valid := 0x80, msg := 0x82, len := len % 65536 }
         else
           { s.crq with valid := 0x80, msg := 0xFF, len := 0, data := 0x4 }
       ({ s with state := SPAPR_VTPM_STATE_COMPLETION, crq := r },
        [SpaprEffect.dmaWrite s.crq.data len, SpaprEffect.sendCrq r])) := by
  cases dmaWriteOk <;>
    simp [tpm_spapr_request_completed_body, wire16, wire32,
      SPAPR_VTPM_MSG_RESULT, SPAPR_VTPM_TPM_COMMAND, SPAPR_VTPM_VTPM_ERROR,
      SPAPR_VTPM_ERR_COPY_OUT_FAILED]

/-- C4: from a state whose start bit is clear, writing start-invoke submits
exactly one command, and writing start-invoke again with no intervening
completion is a no-op: the state is identical to the state after the first
write and no further effect is produced. -/
theorem tpm_crb_start_invoke_idempotent (s : CRBState) (c1 c2 : Nat)
    (h : s.regs.ctrl_start &&& CRB_START_INVOKE = 0) :
    tpm_crb_mmio_write (tpm_crb_mmio_write s CRB_ADDR_CTRL_START
        CRB_START_INVOKE c1).1 CRB_ADDR_CTRL_START CRB_START_INVOKE c2 =
      ((tpm_crb_mmio_write s CRB_ADDR_CTRL_START CRB_START_INVOKE c1).1,
       []) ∧
    crbCountDeliver
      ((tpm_crb_mmio_write s CRB_ADDR_CTRL_START CRB_START_INVOKE c1).2 ++
       (tpm_crb_mmio_write (tpm_crb_mmio_write s CRB_ADDR_CTRL_START
          CRB_START_INVOKE c1).1 CRB_ADDR_CTRL_START CRB_START_INVOKE
          c2).2) = 1 := by
  have h2 : s.regs.ctrl_start % 2 = 0 := by
    simpa [CRB_START_INVOKE, Nat.and_one_is_mod] using h
  simp [tpm_crb_mmio_write, h2, lor_one_mod_two, CRB_ADDR_CTRL_START,
    CRB_ADDR_CTRL_REQ, CRB_ADDR_CTRL_CANCEL, CRB_ADDR_LOC_CTRL,
    CRB_START_INVOKE, crbCountDeliver]

theorem tpm_crb_start_invoke_idempotent_witness :
    tpm_crb_mmio_write (tpm_crb_mmio_write crbInit CRB_ADDR_CTRL_START
        CRB_START_INVOKE 10).1 CRB_ADDR_CTRL_START CRB_START_INVOKE 10 =
      ((tpm_crb_mmio_write crbInit CRB_ADDR_CTRL_START CRB_START_INVOKE
          10).1, []) ∧
    crbCountDeliver
      ((tpm_crb_mmio_write crbInit CRB_ADDR_CTRL_START CRB_START_INVOKE
          10).2 ++
       (tpm_crb_mmio_write (tpm_crb_mmio_write crbInit CRB_ADDR_CTRL_START
          CRB_START_INVOKE 10).1 CRB_ADDR_CTRL_START CRB_START_INVOKE
          10).2) = 1 :=
  tpm_crb_start_invoke_idempotent crbInit 10 10 (by decide)

/-- C5: pre-save stores the backend drain answer (true exactly when a
completed-but-undelivered response exists, per the backend contract of
tpm_backend_wait_cmd_completed) in the deferred flag and changes nothing
else; post-load runs the exact completion path (one DMA write plus one
response CRQ send) precisely when the flag is set, and is the identity with
no effects otherwise, so a result computed before the snapshot is delivered
exactly once. -/
theorem tpm_spapr_migration_replay (s : SPAPRvTPMState) (waitResult : Bool)
    (respSize : Nat) (dmaWriteOk : Bool) :
    tpm_spapr_pre_save s waitResult = { s with run_bh_func := waitResult } ∧
    tpm_spapr_post_load s respSize dmaWriteOk =
      (if s.run_bh_func then
         tpm_spapr_request_completed_body s respSize dmaWriteOk
       else (s, [])) ∧
    countDmaWrite (tpm_spapr_post_load s respSize dmaWriteOk).2 =
      (if s.run_bh_func then 1 else 0) ∧
    countSend (tpm_spapr_post_load s respSize dmaWriteOk).2 =
      (if s.run_bh_func then 1 else 0) := by
  refine ⟨rfl, rfl, ?_, ?_⟩ <;>
    cases hr : s.run_bh_func <;>
      simp [tpm_spapr_post_load, tpm_spapr_request_completed_body, hr,
        countDmaWrite, countSend]

/-- C6 counterexample: with a backend that had a startup error and whose
underlying version is 2.0, the device after reset answers the Get-version
CRQ with data = 2, not 0; only the TPMIf get_version callback is gated on
the startup error. -/
theorem tpm_spapr_version_not_gated_counterexample :
    tpm_spapr_get_version true TPMVersion.v2_0 = TPMVersion.unspec ∧
    (tpm_spapr_do_crq (tpm_spapr_reset spaprInit TPMVersion.v2_0 4096).1
        mGetVersion true 0).1.2 =
      [SpaprEffect.sendCrq
        { mGetVersion with msg := 0x81, len := 0, data := 2 }] ∧
    (2 : Nat) ≠ 0 := by decide

/-- C6 amended: the TPMIf get_version callback reports the unspecified
version whenever the backend had a startup error; the Get-version CRQ
response instead carries the version cached at reset from the backend,
independent of the startup-error status. -/
theorem tpm_spapr_version_gating :
    (∀ v, tpm_spapr_get_version true v = TPMVersion.unspec) ∧
    (∀ (err : Bool) v, tpm_spapr_get_version err v =
       if err then TPMVersion.unspec else v) ∧
    (∀ s (m : VioCRQ) (dOk : Bool) (cs : Nat),
       m.valid = SPAPR_VTPM_VALID_COMMAND → m.msg = SPAPR_VTPM_GET_VERSION →
       (tpm_spapr_do_crq s m dOk cs).1.2 =
         [SpaprEffect.sendCrq
           { m with
             msg := m.msg ||| SPAPR_VTPM_MSG_RESULT, len := 0,
             data := versionCode s.be_tpm_version }]) := by
  refine ⟨fun v => rfl, fun err v => rfl, fun s m dOk cs hv hm => ?_⟩
  have hw : wire32 (versionCode s.be_tpm_version) =
      versionCode s.be_tpm_version := by
    cases s.be_tpm_version <;> rfl
  simp [tpm_spapr_do_crq, hv, hm, hw, wire16, SPAPR_VTPM_VALID_COMMAND,
    SPAPR_VTPM_VALID_INIT_CRQ_COMMAND, SPAPR_VTPM_GET_VERSION,
    SPAPR_VTPM_TPM_COMMAND, SPAPR_VTPM_GET_RTCE_BUFFER_SIZE]

theorem tpm_spapr_version_gating_witness :
    (tpm_spapr_do_crq sIdle4096 mGetVersion true 0).1.2 =
      [SpaprEffect.sendCrq
        { mGetVersion with
          msg := mGetVersion.msg ||| SPAPR_VTPM_MSG_RESULT, len := 0,
          data := versionCode sIdle4096.be_tpm_version }] :=
  tpm_spapr_version_gating.2.2 sIdle4096 mGetVersion true 0 rfl rfl

/-- C7: when the DMA read of the guest payload fails during a TPM-command
dispatch, the dispatch is not aborted: the device still enters Executing and
still submits exactly one command to the backend, and additionally a
vTPM-error response with data = 3 (copy-in-failed) is sent; the hypercall
returns H_SUCCESS and the resulting state stays in the declared state set. -/
theorem tpm_spapr_dma_read_failure (s : SPAPRvTPMState) (m : VioCRQ)
    (cmdSize : Nat)
    (hst : s.state ≠ SPAPR_VTPM_STATE_EXECUTION)
    (hv : m.valid = SPAPR_VTPM_VALID_COMMAND)
    (hm : m.msg = SPAPR_VTPM_TPM_COMMAND) :
    (tpm_spapr_do_crq s m false cmdSize).2 = H_SUCCESS ∧
    (tpm_spapr_do_crq s m false cmdSize).1.1.state =
      SPAPR_VTPM_STATE_EXECUTION ∧
    (tpm_spapr_do_crq s m false cmdSize).1.2 =
      [SpaprEffect.dmaRead m.data s.be_buffer_size,
       SpaprEffect.deliverRequest 0 (min cmdSize MAX_BUFFER_SIZE)
         MAX_BUFFER_SIZE,
       SpaprEffect.sendCrq
         { m with
           valid := SPAPR_VTPM_MSG_RESULT, msg := SPAPR_VTPM_VTPM_ERROR,
           data := SPAPR_VTPM_ERR_COPY_IN_FAILED }] ∧
    countDeliver (tpm_spapr_do_crq s m false cmdSize).1.2 = 1 ∧
    ((tpm_spapr_do_crq s m false cmdSize).1.1.state = SPAPR_VTPM_STATE_NONE ∨
     (tpm_spapr_do_crq s m false cmdSize).1.1.state =
       SPAPR_VTPM_STATE_EXECUTION ∨
     (tpm_spapr_do_crq s m false cmdSize).1.1.state =
       SPAPR_VTPM_STATE_COMPLETION) := by
  have hst1 : ¬(s.state = 1) := by
    simpa [SPAPR_VTPM_STATE_EXECUTION] using hst
  simp [tpm_spapr_do_crq, tpm_spapr_process_cmd, tpm_spapr_tpm_send, hv, hm,
    hst1, wire32, SPAPR_VTPM_VALID_COMMAND, SPAPR_VTPM_VALID_INIT_CRQ_COMMAND,
    SPAPR_VTPM_TPM_COMMAND, SPAPR_VTPM_STATE_EXECUTION,
    SPAPR_VTPM_STATE_NONE, SPAPR_VTPM_STATE_COMPLETION, H_SUCCESS, H_BUSY,
    SPAPR_VTPM_MSG_RESULT, SPAPR_VTPM_VTPM_ERROR,
    SPAPR_VTPM_ERR_COPY_IN_FAILED, countDeliver]

theorem tpm_spapr_dma_read_failure_witness :
    (tpm_spapr_do_crq sIdle4096 mTpmCmd false 32).2 = H_SUCCESS ∧
    (tpm_spapr_do_crq sIdle4096 mTpmCmd false 32).1.1.state =
      SPAPR_VTPM_STATE_EXECUTION ∧
    (tpm_spapr_do_crq sIdle4096 mTpmCmd false 32).1.2 =
      [SpaprEffect.dmaRead mTpmCmd.data sIdle4096.be_buffer_size,
       SpaprEffect.deliverRequest 0 (min 32 MAX_BUFFER_SIZE)
         MAX_BUFFER_SIZE,
       SpaprEffect.sendCrq
         { mTpmCmd with
           valid := SPAPR_VTPM_MSG_RESULT, msg := SPAPR_VTPM_VTPM_ERROR,
           data := SPAPR_VTPM_ERR_COPY_IN_FAILED }] ∧
    countDeliver (tpm_spapr_do_crq sIdle4096 mTpmCmd false 32).1.2 = 1 ∧
    ((tpm_spapr_do_crq sIdle4096 mTpmCmd false 32).1.1.state =
       SPAPR_VTPM_STATE_NONE ∨
     (tpm_spapr_do_crq sIdle4096 mTpmCmd false 32).1.1.state =
       SPAPR_VTPM_STATE_EXECUTION ∨
     (tpm_spapr_do_crq sIdle4096 mTpmCmd false 32).1.1.state =
       SPAPR_VTPM_STATE_COMPLETION) :=
  tpm_spapr_dma_read_failure sIdle4096 mTpmCmd 32 (by decide) rfl rfl

/-- C8 counterexample: a backend-reported buffer size of 8192 makes the CRQ
reset negotiate 8192 bytes, strictly larger than the fixed one-page scratch
buffer (MAX_BUFFER_SIZE = 4096), so the scratch buffer is smaller than the
negotiated size. -/
theorem tpm_spapr_scratch_smaller_counterexample :
    (tpm_spapr_reset spaprInit TPMVersion.v2_0 8192).1.be_buffer_size =
      8192 ∧
    MAX_BUFFER_SIZE = 4096 ∧
    MAX_BUFFER_SIZE <
      (tpm_spapr_reset spaprInit TPMVersion.v2_0 8192).1.be_buffer_size := by
  decide

/-- C8 amended: every CRQ reset recomputes the negotiated size as
max(round_up(backend size, page size), scratch size), identically for any
two resets with the same backend size; the scratch buffer is fixed at one
page (MAX_BUFFER_SIZE = TARGET_PAGE_SIZE), so the negotiated size is always
at least the scratch size and can exceed it. -/
theorem tpm_spapr_buffer_negotiation :
    (∀ s v B, (tpm_spapr_reset s v B).1.be_buffer_size =
       max (ROUND_UP B TARGET_PAGE_SIZE) MAX_BUFFER_SIZE) ∧
    (∀ s1 s2 v1 v2 B,
       (tpm_spapr_reset s1 v1 B).1.be_buffer_size =
       (tpm_spapr_reset s2 v2 B).1.be_buffer_size) ∧
    MAX_BUFFER_SIZE = TARGET_PAGE_SIZE ∧
    (∀ s v B, MAX_BUFFER_SIZE ≤ (tpm_spapr_reset s v B).1.be_buffer_size) := by
  exact ⟨fun s v B => rfl, fun s1 s2 v1 v2 B => rfl, rfl,
    fun s v B => Nat.le_max_right _ _⟩

/-- C9: the CRB completion callback clears the start bit, ORs the TPM-status
error bit into control-status exactly when the backend result is nonzero,
and changes no other field; no guest MMIO write ever clears the start bit
(so the callback is the only clearing operation among the dispatch-path
operations), and a cancel-invoke write leaves the whole state unchanged,
forwarding a cancel to the backend exactly when the start bit is set. -/
theorem tpm_crb_completion_frame :
    (∀ (s : CRBState) (ret : Int),
       (tpm_crb_request_completed s ret).regs.ctrl_start =
         s.regs.ctrl_start &&& 0xFFFFFFFE ∧
       (tpm_crb_request_completed s ret).regs.ctrl_sts =
         (if ret ≠ 0 then s.regs.ctrl_sts ||| CRB_CTRL_STS_TPM_STS
          else s.regs.ctrl_sts) ∧
       (tpm_crb_request_completed s ret).regs.loc_state =
         s.regs.loc_state ∧
       (tpm_crb_request_completed s ret).regs.loc_ctrl = s.regs.loc_ctrl ∧
       (tpm_crb_request_completed s ret).regs.loc_sts = s.regs.loc_sts ∧
       (tpm_crb_request_completed s ret).regs.intf_id_low =
         s.regs.intf_id_low ∧
       (tpm_crb_request_completed s ret).regs.intf_id_high =
         s.regs.intf_id_high ∧
       (tpm_crb_request_completed s ret).regs.ctrl_ext_low =
         s.regs.ctrl_ext_low ∧
       (tpm_crb_request_completed s ret).regs.ctrl_ext_high =
         s.regs.ctrl_ext_high ∧
       (tpm_crb_request_completed s ret).regs.ctrl_req = s.regs.ctrl_req ∧
       (tpm_crb_request_completed s ret).regs.ctrl_cancel =
         s.regs.ctrl_cancel ∧
       (tpm_crb_request_completed s ret).regs.ctrl_int_enable =
         s.regs.ctrl_int_enable ∧
       (tpm_crb_request_completed s ret).regs.ctrl_int_sts =
         s.regs.ctrl_int_sts ∧
       (tpm_crb_request_completed s ret).regs.ctrl_cmd_size =
         s.regs.ctrl_cmd_size ∧
       (tpm_crb_request_completed s ret).regs.ctrl_cmd_pa_low =
         s.regs.ctrl_cmd_pa_low ∧
       (tpm_crb_request_completed s ret).regs.ctrl_cmd_pa_high =
         s.regs.ctrl_cmd_pa_high ∧
       (tpm_crb_request_completed s ret).regs.ctrl_rsp_size =
         s.regs.ctrl_rsp_size ∧
       (tpm_crb_request_completed s ret).regs.ctrl_rsp_pa_low =
         s.regs.ctrl_rsp_pa_low ∧
       (tpm_crb_request_completed s ret).regs.ctrl_rsp_pa_high =
         s.regs.ctrl_rsp_pa_high ∧
       (tpm_crb_request_completed s ret).be_buffer_size =
         s.be_buffer_size ∧
       (tpm_crb_request_completed s ret).cmd_in_len = s.cmd_in_len ∧
       (tpm_crb_request_completed s ret).cmd_out_len = s.cmd_out_len) ∧
    (∀ (s : CRBState) (addr val c : Nat),
       s.regs.ctrl_start &&& CRB_START_INVOKE ≤
         (tpm_crb_mmio_write s addr val c).1.regs.ctrl_start &&&
           CRB_START_INVOKE) ∧
    (∀ (s : CRBState) (c : Nat),
       tpm_crb_mmio_write s CRB_ADDR_CTRL_CANCEL CRB_CANCEL_INVOKE c =
         (s, if s.regs.ctrl_start &&& CRB_START_INVOKE ≠ 0 then
               [CrbEffect.cancelCmd]
             else [])) := by
  refine ⟨?_, ?_, ?_⟩
  · intro s ret
    refine ⟨rfl, rfl, ?_⟩
    simp [tpm_crb_request_completed]
  · intro s addr val c
    unfold tpm_crb_mmio_write
    repeat' split <;> try exact Nat.le_refl _
    simp_all [CRB_START_INVOKE, Nat.and_one_is_mod]
  · intro s c
    simp only [tpm_crb_mmio_write, CRB_ADDR_CTRL_CANCEL, CRB_ADDR_CTRL_REQ,
      CRB_CANCEL_INVOKE, CRB_START_INVOKE]
    rcases Nat.mod_two_eq_zero_or_one s.regs.ctrl_start with h | h <;>
      simp [Nat.and_one_is_mod, h]

/-- C10: the Get-RTCE-buffer-size response stores the negotiated size in the
16-bit len field, so the guest sees the size modulo 2^16; whenever the
negotiated size is at least 65536 the reported value is strictly smaller
than the true size, and such sizes are reachable since reset negotiates a
page-rounded maximum with no upper bound (backend size 65536 yields 65536). -/
theorem tpm_spapr_rtce_len_truncation (s : SPAPRvTPMState) (m : VioCRQ)
    (dOk : Bool) (cs : Nat)
    (hv : m.valid = SPAPR_VTPM_VALID_COMMAND)
    (hm : m.msg = SPAPR_VTPM_GET_RTCE_BUFFER_SIZE) :
    (tpm_spapr_do_crq s m dOk cs).1.2 =
      [SpaprEffect.sendCrq
        { m with
          msg := m.msg ||| SPAPR_VTPM_MSG_RESULT,
          len := s.be_buffer_size % 65536 }] ∧
    (65536 ≤ s.be_buffer_size →
       s.be_buffer_size % 65536 < s.be_buffer_size) ∧
    (tpm_spapr_reset s TPMVersion.v2_0 65536).1.be_buffer_size = 65536 := by
  refine ⟨?_, fun hbig => ?_, rfl⟩
  · simp [tpm_spapr_do_crq, hv, hm, wire16, SPAPR_VTPM_VALID_COMMAND,
      SPAPR_VTPM_VALID_INIT_CRQ_COMMAND, SPAPR_VTPM_GET_RTCE_BUFFER_SIZE,
      SPAPR_VTPM_TPM_COMMAND]
  · exact lt_of_lt_of_le (Nat.mod_lt _ (by norm_num)) hbig

theorem tpm_spapr_rtce_len_truncation_witness :
    (tpm_spapr_do_crq sBig mGetRtce true 0).1.2 =
      [SpaprEffect.sendCrq
        { mGetRtce with
          msg := mGetRtce.msg ||| SPAPR_VTPM_MSG_RESULT,
          len := sBig.be_buffer_size % 65536 }] ∧
    (65536 ≤ sBig.be_buffer_size →
       sBig.be_buffer_size % 65536 < sBig.be_buffer_size) ∧
    (tpm_spapr_reset sBig TPMVersion.v2_0 65536).1.be_buffer_size = 65536 :=
  tpm_spapr_rtce_len_truncation sBig mGetRtce true 0 rfl rfl
